import Mathlib

/-!
Verification of the interplanetary-network predictive relay pipeline.

Shallow embedding of the repository's Python sources:
  - `src/sender/main.py`            (signing of real frames)
  - `src/edge_server/main.py`       (verification, interpolation, predictor)
  - `src/network_simulator/main.py` (delay/loss injection, configuration)

Numeric conventions: Python floats are modelled as rationals (`ℚ`),
byte strings as `List Nat`, and the Ed25519 signature scheme as an
idealized perfect (EUF) scheme: a signature is the pair of the signer's
key identity and the message, and verification checks that the signature
is exactly the one the holder of the key would produce on the message.
Base64 transport is modelled by a wrapper that either carries the decoded
value or is malformed (an arbitrary string that fails to decode).
-/

namespace InterplanetaryNetwork

/-! ### Idealized Ed25519 primitives

`nacl.signing.SigningKey.sign` / `VerifyKey.verify`.  A key pair is
identified by a single `Nat` (the public key determines the signing key
in the ideal model). -/

/-- An Ed25519 signature in the ideal model: it determines the signer and
the signed message. -/
structure Sig where
  signer : Nat
  message : String
deriving DecidableEq, Repr

/-- Idealized `SigningKey.sign`: produce the unique signature of `m` under `sk`. -/
def ed_sign (sk : Nat) (m : String) : Sig := ⟨sk, m⟩

/-- Idealized `VerifyKey.verify`: succeeds exactly on the unique signature
of `m` under the key `pk`. -/
def ed_verify (pk : Nat) (m : String) (sig : Sig) : Bool :=
  decide (sig = ed_sign pk m)

/-- Base64-transported public key: either decodes to a key or is malformed
(a string `base64.b64decode` / `VerifyKey` rejects). -/
inductive B64Key where
  | valid (key : Nat)
  | malformed
deriving DecidableEq, Repr

/-- Base64-transported signature: either decodes to a signature or is malformed. -/
inductive B64Sig where
  | valid (sig : Sig)
  | malformed
deriving DecidableEq, Repr

/-! ### Decimal rendering

Python renders the nonnegative integer `len(frame_data)` in decimal inside
the signed f-string.  `natStr` is that decimal rendering: most significant
digit first, with `0` rendered as `"0"`. -/

/-- Decimal string of a natural number, as Python `str(n)` renders it. -/
def natStr (n : Nat) : String :=
  if n = 0 then "0" else (((Nat.digits 10 n).map Nat.digitChar).reverse).asString

/-! ### Sender — `src/sender/main.py` -/

/-- The metadata dictionary travelling with a real frame.  Every field is
optional because a receiver-side dictionary access (`metadata["k"]`) can
fail with `KeyError`.  `sign_frame_data` itself populates `frame_id`,
`timestamp`, `signature`, `public_key` and `is_keyframe`; the streaming
loop adds `frame_size`. -/
structure MetaDict where
  frame_id : Option Int
  timestamp : Option ℚ
  signature : Option B64Sig
  public_key : Option B64Key
  frame_size : Option Nat
  is_keyframe : Option Bool
deriving DecidableEq, Repr

/-- The canonical message a real frame is signed over, the f-string
`"{frame_id}:{timestamp}:{len(frame_data)}"` of `sign_frame_data` and
(with the declared size in the last slot) of `verify_origin_signature`. -/
def frame_message (frame_id : Int) (timestamp : ℚ) (size : Nat) : String :=
  toString frame_id ++ ":" ++ toString timestamp ++ ":" ++ natStr size

/-- `sign_frame_data(frame_data, frame_id, timestamp)` of `src/sender/main.py`:
sign the canonical message and return the metadata dict. -/
def sign_frame_data (sk : Nat) (frame_data : List Nat) (frame_id : Int)
    (timestamp : ℚ) : MetaDict :=
  { frame_id := some frame_id
    timestamp := some timestamp
    signature := some (B64Sig.valid (ed_sign sk (frame_message frame_id timestamp frame_data.length)))
    public_key := some (B64Key.valid sk)
    frame_size := none
    is_keyframe := some true }

/-! ### Edge server — `src/edge_server/main.py` -/

/-- `verify_origin_signature(metadata, frame_size)`: rebuild the canonical
message from the metadata's own fields plus the externally supplied size
and check the signature.  Every failure path of the Python `try` block —
missing key (`KeyError`), undecodable base64, bad key, bad signature —
returns `false`; the catch-all `except` makes the function total. -/
def verify_origin_signature (metadata : MetaDict) (frame_size : Nat) : Bool :=
  match metadata.public_key with
  | some (B64Key.valid pk) =>
    match metadata.frame_id, metadata.timestamp, metadata.signature with
    | some fid, some ts, some (B64Sig.valid sig) =>
      ed_verify pk (frame_message fid ts frame_size) sig
    | _, _, _ => false
  | _ => false

/-- A decoded telemetry payload.  The Python side reads the fields with
`frame.get(key, default)`; the sources that produce these frames always
populate all five fields, so they are total here. -/
structure TelemetryFrame where
  rover_x : ℚ
  rover_y : ℚ
  state : String
  battery : ℚ
  temperature : ℚ
deriving DecidableEq, Repr

/-- The confidence attached by `interpolate_frames` to every interpolated
frame: `max(0.5, min(0.98, 1.0 - dist / 500))` where `dist` is the
Euclidean displacement between the bracketing frames. -/
def interp_confidence (dist : ℚ) : ℚ :=
  max (1/2) (min (49/50) (1 - dist / 500))

/-- `interpolate_frames(frame1, frame2, num_interpolated)`.  The Python code
computes `dist = ((x2-x1)**2 + (y2-y1)**2)**0.5` with float arithmetic;
here the Euclidean displacement is the parameter `dist`, which the
theorems constrain by `0 ≤ dist` and `dist^2 = (x2-x1)^2 + (y2-y1)^2`
(the characterization of that square root). -/
def interpolate_frames (frame1 frame2 : TelemetryFrame) (dist : ℚ)
    (num_interpolated : Nat) : List (TelemetryFrame × ℚ) :=
  (List.range num_interpolated).map (fun i =>
    let alpha : ℚ := (i + 1 : ℕ) / ((num_interpolated : ℚ) + 1)
    ({ rover_x := frame1.rover_x + (frame2.rover_x - frame1.rover_x) * alpha
       rover_y := frame1.rover_y + (frame2.rover_y - frame1.rover_y) * alpha
       state := frame2.state
       battery := frame2.battery
       temperature := frame2.temperature },
     interp_confidence dist))

/-- A buffered real frame together with its metadata
(`state["latest_real_frame"]`). -/
structure RealFrame where
  frame : TelemetryFrame
  metadata : MetaDict
deriving DecidableEq, Repr

/-- The shared state dict of the `/process` endpoint. -/
structure PredictorState where
  active : Bool
  latest_real_frame : Option RealFrame
  predicted_x : ℚ
  predicted_y : ℚ
  true_x : ℚ
  true_y : ℚ
  velocity_x : ℚ
  velocity_y : ℚ
  last_update_time : ℚ
  origin_verified : Bool
  correction_active : Bool
deriving DecidableEq, Repr

/-- The receiver task's x-velocity estimate from two consecutive real
x-positions (`src/edge_server/main.py`, receiver task): inside the
wrap-around guard `abs(curr_x - prev_x) < 400`, the speed is `2.0` when
`curr_x >= prev_x` and `-2.0` otherwise; outside the guard the previous
velocity is kept (no assignment happens). -/
def update_velocity_x (vx : ℚ) (prev_x curr_x : ℚ) : ℚ :=
  if |curr_x - prev_x| < 400 then (if prev_x ≤ curr_x then 2 else -2) else vx

/-- The receiver task's per-real-frame state update: estimate velocity,
project the stale position forward by `velocity * (age * 30)`, arm the
soft correction, and store the frame. -/
def ingest_real_frame (s : PredictorState) (now : ℚ) (curr : TelemetryFrame)
    (metadata : MetaDict) (origin_verified : Bool) : PredictorState :=
  let s1 :=
    match s.latest_real_frame with
    | some real_data =>
      { s with velocity_x := update_velocity_x s.velocity_x real_data.frame.rover_x curr.rover_x }
    | none =>
      { s with predicted_x := curr.rover_x, predicted_y := curr.rover_y }
  let sender_timestamp := metadata.timestamp.getD now
  let age_seconds := max 0 (now - sender_timestamp)
  let frames_elapsed := age_seconds * 30
  { s1 with
    true_x := curr.rover_x + s1.velocity_x * frames_elapsed
    true_y := curr.rover_y + s1.velocity_y * frames_elapsed
    correction_active := true
    last_update_time := now
    origin_verified := origin_verified
    latest_real_frame := some { frame := curr, metadata := metadata } }

/-- The metadata of a forwarded real frame: `{**metadata,
"origin_verified": ..., "is_synthesized": False}`. -/
structure ForwardedMeta where
  base : MetaDict
  origin_verified : Bool
  is_synthesized : Bool
deriving DecidableEq, Repr

/-- The receiver task's forwarding of the original real frame to the
client: the metadata is extended with the verification result and
`is_synthesized: False`. -/
def forward_real_frame (metadata : MetaDict) (origin_verified : Bool) : ForwardedMeta :=
  { base := metadata, origin_verified := origin_verified, is_synthesized := false }

/-- The attestation metadata returned by `sign_synthesized_frame`. -/
structure SynthMetadata where
  frame_id : String
  timestamp : ℚ
  is_synthesized : Bool
  parent_frame_ids : List Int
  confidence : ℚ
  predictor_version : String
  edge_signature : Sig
  edge_public_key : Nat
deriving DecidableEq, Repr

/-- The canonical message of a synthesized frame, the f-string
`"synth:{frame_id}:{timestamp}:{confidence:.4f}:{parent_frame_ids}"`. -/
def synth_message (frame_id : String) (timestamp : ℚ) (confidence : ℚ)
    (parent_frame_ids : List Int) : String :=
  "synth:" ++ frame_id ++ ":" ++ toString timestamp ++ ":" ++ toString confidence
    ++ ":" ++ toString parent_frame_ids

/-- `sign_synthesized_frame(frame_data, frame_id, parent_frame_ids,
confidence)`: sign the synthesized frame's canonical message and build its
attestation.  As in the source, the payload itself does not enter the
signed message.  `time.time()` is the parameter `timestamp`. -/
def sign_synthesized_frame (sk : Nat) (_frame_data : TelemetryFrame)
    (frame_id : String) (parent_frame_ids : List Int) (confidence : ℚ)
    (timestamp : ℚ) : SynthMetadata :=
  { frame_id := frame_id
    timestamp := timestamp
    is_synthesized := true
    parent_frame_ids := parent_frame_ids
    confidence := confidence
    predictor_version := "linear_interp_v1"
    edge_signature := ed_sign sk (synth_message frame_id timestamp confidence parent_frame_ids)
    edge_public_key := sk }

/-- The extrapolation step of the predictor task: if the latest real frame
is stale (`dt > 0.05`), advance the prediction by one velocity step. -/
def extrapolate_step (s : PredictorState) (dt : ℚ) : PredictorState :=
  if dt > 1/20 then
    { s with predicted_x := s.predicted_x + s.velocity_x
             predicted_y := s.predicted_y + s.velocity_y }
  else s

/-- The soft-correction step of the predictor task: while `correction_active`,
move the prediction 10% of the remaining distance toward the correction
target `(true_x, true_y)`, and disarm the flag when the (pre-step)
remaining distance is below `1.0` in both axes. -/
def correction_step (s : PredictorState) : PredictorState :=
  if s.correction_active then
    let diff_x := s.true_x - s.predicted_x
    let diff_y := s.true_y - s.predicted_y
    { s with
      predicted_x := s.predicted_x + diff_x * (1/10)
      predicted_y := s.predicted_y + diff_y * (1/10)
      correction_active := if |diff_x| < 1 ∧ |diff_y| < 1 then false else s.correction_active }
  else s

/-- The pure 10%-easing update applied to one axis on every correcting
tick: `P + (T - P) * 0.1`. -/
def ease (T P : ℚ) : ℚ := P + (T - P) * (1/10)

/-- `n` repetitions of the 10%-easing update toward the fixed target `T`. -/
def ease_iter (T P : ℚ) : Nat → ℚ
  | 0 => P
  | n + 1 => ease T (ease_iter T P n)

/-- Strategy B confidence: `max(0.1, 1.0 - (dt / 2.0))` for staleness age `dt`. -/
def strategyB_confidence (dt : ℚ) : ℚ := max (1/10) (1 - dt / 2)

/-- One synthesized sample emitted downstream by the predictor task. -/
structure SynthOutput where
  metadata : SynthMetadata
  origin_verified : Bool
  data : TelemetryFrame
deriving DecidableEq, Repr

/-- One iteration of the predictor task's `while state["active"]` loop body
(`src/edge_server/main.py`): wait for the first real packet, extrapolate
if stale, soft-correct, and emit exactly one signed synthesized sample.
Returns the updated state, the updated `synth_count`, and the emitted
sample (`none` exactly when no real packet has arrived yet). -/
def predictor_tick (sk : Nat) (now : ℚ) (synth_count : Nat) (s : PredictorState) :
    PredictorState × Nat × Option SynthOutput :=
  match s.latest_real_frame with
  | none => (s, synth_count, none)
  | some real_data =>
    let dt := now - s.last_update_time
    let s2 := correction_step (extrapolate_step s dt)
    let real_frame := real_data.frame
    let interp_frame : TelemetryFrame :=
      { rover_x := s2.predicted_x
        rover_y := s2.predicted_y
        state := real_frame.state
        battery := real_frame.battery
        temperature := real_frame.temperature }
    let synth_count2 := synth_count + 1
    let confidence := strategyB_confidence dt
    let parent_id := real_data.metadata.frame_id.getD 0
    let synth_metadata :=
      sign_synthesized_frame sk interp_frame ("synth_" ++ natStr synth_count2)
        [parent_id] confidence now
    (s2, synth_count2,
     some { metadata := synth_metadata
            origin_verified := s2.origin_verified
            data := interp_frame })

/-! ### Network simulator — `src/network_simulator/main.py` -/

/-- The network simulation configuration dataclass. -/
structure NetworkConfig where
  base_delay_ms : Int
  jitter_ms : Int
  packet_loss_rate : ℚ
  bandwidth_limit_kbps : Option Int
deriving DecidableEq, Repr

/-- The module-level default configuration. -/
def default_config : NetworkConfig :=
  { base_delay_ms := 3000, jitter_ms := 500, packet_loss_rate := 1/50,
    bandwidth_limit_kbps := none }

/-- `POST /config` — `update_config`: each parameter that is supplied
(`is not None`) overwrites the corresponding field; `packet_loss_rate` is
clamped to `[0, 1]` by `max(0, min(1, rate))`; omitted parameters leave
their fields untouched. -/
def update_config (c : NetworkConfig) (base_delay_ms : Option Int)
    (jitter_ms : Option Int) (packet_loss_rate : Option ℚ)
    (bandwidth_limit_kbps : Option Int) : NetworkConfig :=
  let c1 := match base_delay_ms with
    | some v => { c with base_delay_ms := v }
    | none => c
  let c2 := match jitter_ms with
    | some v => { c1 with jitter_ms := v }
    | none => c1
  let c3 := match packet_loss_rate with
    | some v => { c2 with packet_loss_rate := max 0 (min 1 v) }
    | none => c2
  match bandwidth_limit_kbps with
  | some v => { c3 with bandwidth_limit_kbps := some v }
  | none => c3

/-- `calculate_delay()`: with `jitter = random.uniform(-jitter_ms, jitter_ms)`
modelled as the drawn value `u`, the injected delay in seconds is
`max(0, base_delay_ms + jitter) / 1000.0`. -/
def calculate_delay (base_delay_ms u : ℚ) : ℚ :=
  max 0 (base_delay_ms + u) / 1000

/-! ## Theorems -/

/-- `Nat.digitChar` is injective below 10. -/
theorem digitChar_inj_lt10 :
    ∀ a < 10, ∀ b < 10, Nat.digitChar a = Nat.digitChar b → a = b := by decide

/-- Mapping `Nat.digitChar` over lists of decimal digits is injective. -/
theorem map_digitChar_inj : ∀ l1 l2 : List Nat, (∀ x ∈ l1, x < 10) →
    (∀ x ∈ l2, x < 10) → l1.map Nat.digitChar = l2.map Nat.digitChar → l1 = l2 := by
  intro l1
  induction l1 with
  | nil =>
    intro l2 _ _ h
    cases l2 with
    | nil => rfl
    | cons b t => simp at h
  | cons a t ih =>
    intro l2 h1 h2 h
    cases l2 with
    | nil => simp at h
    | cons b t2 =>
      simp only [List.map_cons, List.cons.injEq] at h
      have ha : a < 10 := h1 a (List.mem_cons_self a t)
      have hb : b < 10 := h2 b (List.mem_cons_self b t2)
      have hab : a = b := digitChar_inj_lt10 a ha b hb h.1
      have ht : t = t2 := ih t2 (fun x hx => h1 x (List.mem_cons_of_mem a hx))
        (fun x hx => h2 x (List.mem_cons_of_mem b hx)) h.2
      rw [hab, ht]

/-- The decimal rendering of a natural number is injective. -/
theorem natStr_injective : Function.Injective natStr := by
  intro m n h
  unfold natStr at h
  by_cases hm : m = 0 <;> by_cases hn : n = 0
  · rw [hm, hn]
  · exfalso
    rw [if_pos hm, if_neg hn] at h
    have h0 : ("0" : String) = ([('0' : Char)]).asString := rfl
    rw [h0, List.asString_inj] at h
    have hlen := congrArg List.length h
    simp only [List.length_singleton, List.length_reverse, List.length_map] at hlen
    obtain ⟨d, hd⟩ : ∃ d, Nat.digits 10 n = [d] := by
      cases hdig : Nat.digits 10 n with
      | nil => rw [hdig] at hlen; simp at hlen
      | cons d t =>
        cases t with
        | nil => exact ⟨d, rfl⟩
        | cons e t2 => rw [hdig] at hlen; simp at hlen
    rw [hd] at h
    simp only [List.map_cons, List.map_nil, List.reverse_cons, List.reverse_nil,
      List.nil_append, List.cons.injEq] at h
    have hd10 : d < 10 := Nat.digits_lt_base (by norm_num) (by rw [hd]; exact List.mem_singleton.mpr rfl)
    have hd0 : d = 0 := digitChar_inj_lt10 d hd10 0 (by norm_num) h.1.symm
    have : n = Nat.ofDigits 10 (Nat.digits 10 n) := (Nat.ofDigits_digits 10 n).symm
    rw [hd, hd0] at this
    simp [Nat.ofDigits] at this
    exact hn this
  · exfalso
    rw [if_neg hm, if_pos hn] at h
    have h0 : ("0" : String) = ([('0' : Char)]).asString := rfl
    rw [h0, List.asString_inj] at h
    have hlen := congrArg List.length h
    simp only [List.length_singleton, List.length_reverse, List.length_map] at hlen
    obtain ⟨d, hd⟩ : ∃ d, Nat.digits 10 m = [d] := by
      cases hdig : Nat.digits 10 m with
      | nil => rw [hdig] at hlen; simp at hlen
      | cons d t =>
        cases t with
        | nil => exact ⟨d, rfl⟩
        | cons e t2 => rw [hdig] at hlen; simp at hlen
    rw [hd] at h
    simp only [List.map_cons, List.map_nil, List.reverse_cons, List.reverse_nil,
      List.nil_append, List.cons.injEq] at h
    have hd10 : d < 10 := Nat.digits_lt_base (by norm_num) (by rw [hd]; exact List.mem_singleton.mpr rfl)
    have hd0 : d = 0 := digitChar_inj_lt10 d hd10 0 (by norm_num) h.1
    have : m = Nat.ofDigits 10 (Nat.digits 10 m) := (Nat.ofDigits_digits 10 m).symm
    rw [hd, hd0] at this
    simp [Nat.ofDigits] at this
    exact hm this
  · rw [if_neg hm, if_neg hn, List.asString_inj] at h
    have h2 := List.reverse_injective h
    have h3 : Nat.digits 10 m = Nat.digits 10 n :=
      map_digitChar_inj _ _ (fun x hx => Nat.digits_lt_base (by norm_num) hx)
        (fun x hx => Nat.digits_lt_base (by norm_num) hx) h2
    exact Nat.digits.injective 10 h3

/-- Two canonical frame messages with the same id and timestamp but
different sizes are different strings: the decimal size is the final
colon-separated field. -/
theorem frame_message_size_inj (i : Int) (t : ℚ) (s1 s2 : Nat)
    (h : frame_message i t s1 = frame_message i t s2) : s1 = s2 := by
  unfold frame_message at h
  have hdata := congrArg String.data h
  simp only [String.data_append] at hdata
  have h2 : (natStr s1).data = (natStr s2).data := by
    exact List.append_cancel_left hdata
  exact natStr_injective (String.ext h2)

/-- C1: for every payload `d`, frame id `i` and timestamp `t`, verifying
the metadata produced by `sign_frame_data d i t` against the declared size
`len(d)` succeeds (both sides build the same canonical message
`frame_id:timestamp:size`); verification with a declared size different
from `len(d)` fails; and verification with any altered signature fails. -/
theorem sign_verify_round_trip (sk : Nat) (d : List Nat) (i : Int) (t : ℚ) :
    verify_origin_signature (sign_frame_data sk d i t) d.length = true
    ∧ (∀ s : Nat, s ≠ d.length →
        verify_origin_signature (sign_frame_data sk d i t) s = false)
    ∧ (∀ sig : Sig, sig ≠ ed_sign sk (frame_message i t d.length) →
        verify_origin_signature
          { sign_frame_data sk d i t with signature := some (B64Sig.valid sig) }
          d.length = false) := by
  refine ⟨?_, ?_, ?_⟩
  · simp [verify_origin_signature, sign_frame_data, ed_verify]
  · intro s hs
    simp only [verify_origin_signature, sign_frame_data, ed_verify, ed_sign,
      decide_eq_false_iff_not, Sig.mk.injEq, not_and]
    intro _ hmsg
    exact hs (frame_message_size_inj i t s d.length hmsg.symm)
  · intro sig hsig
    simp only [verify_origin_signature, sign_frame_data, ed_verify,
      decide_eq_false_iff_not]
    exact hsig

/-- C1 witness: a concrete round trip over the payload `[1, 2, 3]`,
with failure at the wrong declared size `4` and at a corrupted signature. -/
theorem sign_verify_round_trip_witness :
    verify_origin_signature (sign_frame_data 7 [1, 2, 3] 5 (3/2)) 3 = true
    ∧ verify_origin_signature (sign_frame_data 7 [1, 2, 3] 5 (3/2)) 4 = false
    ∧ verify_origin_signature
        { sign_frame_data 7 [1, 2, 3] 5 (3/2) with
          signature := some (B64Sig.valid ⟨8, ""⟩) } 3 = false := by
  have h := sign_verify_round_trip 7 [1, 2, 3] 5 (3/2)
  exact ⟨h.1, h.2.1 4 (by decide),
    h.2.2 ⟨8, ""⟩ (by simp [ed_sign])⟩

/-- C2: `verify_origin_signature` is a total Boolean function, and it
returns `true` exactly when every required metadata field is present and
well-formed and the signature is the key holder's signature on the
reconstructed canonical message; every failure (missing `public_key`,
`frame_id`, `timestamp` or `signature`, malformed base64 key, malformed
signature, bad signature) therefore yields `false` rather than an
exception. -/
theorem verify_origin_signature_fail_closed (md : MetaDict) (fs : Nat) :
    verify_origin_signature md fs = true ↔
      ∃ pk fid ts sig,
        md.public_key = some (B64Key.valid pk)
        ∧ md.frame_id = some fid
        ∧ md.timestamp = some ts
        ∧ md.signature = some (B64Sig.valid sig)
        ∧ sig = ed_sign pk (frame_message fid ts fs) := by
  cases hpk : md.public_key with
  | none => simp [verify_origin_signature, hpk]
  | some k =>
    cases k with
    | malformed => simp [verify_origin_signature, hpk]
    | valid pk =>
      cases hfid : md.frame_id with
      | none => simp [verify_origin_signature, hpk, hfid]
      | some fid =>
        cases hts : md.timestamp with
        | none => simp [verify_origin_signature, hpk, hfid, hts]
        | some ts =>
          cases hsig : md.signature with
          | none => simp [verify_origin_signature, hpk, hfid, hts, hsig]
          | some sg =>
            cases sg with
            | malformed => simp [verify_origin_signature, hpk, hfid, hts, hsig]
            | valid sig =>
              simp [verify_origin_signature, hpk, hfid, hts, hsig, ed_verify]

/-- C3 counterexample: with previous x-velocity `2.0`, previous position
`0` and current position `500` (absolute delta `500 > 400`), the ingest
step leaves the velocity at `2.0`; it is not set to the reversal value
`-2.0` — the large-delta branch performs no assignment at all. -/
theorem velocity_guard_counterexample :
    update_velocity_x 2 0 500 = 2 ∧ (2 : ℚ) ≠ -2 := by
  constructor
  · unfold update_velocity_x
    norm_num
  · norm_num

/-- C3 (amended): when `|curr - prev| < 400` the estimated x-velocity is
set to `2.0` if `curr ≥ prev` and `-2.0` otherwise; when
`|curr - prev| ≥ 400` (the wrap-around guard fails) the velocity is left
unchanged — the branch is skipped, not treated as a reversal. -/
theorem velocity_guard_spec (vx prev_x curr_x : ℚ) :
    (|curr_x - prev_x| < 400 → prev_x ≤ curr_x →
      update_velocity_x vx prev_x curr_x = 2)
    ∧ (|curr_x - prev_x| < 400 → curr_x < prev_x →
      update_velocity_x vx prev_x curr_x = -2)
    ∧ (400 ≤ |curr_x - prev_x| → update_velocity_x vx prev_x curr_x = vx) := by
  refine ⟨?_, ?_, ?_⟩
  · intro h hle
    simp [update_velocity_x, h, hle]
  · intro h hlt
    simp [update_velocity_x, h, not_le.mpr hlt]
  · intro h
    simp [update_velocity_x, not_lt.mpr h]

/-- C3 witness: concrete evaluations in all three branches. -/
theorem velocity_guard_spec_witness :
    update_velocity_x 2 0 100 = 2
    ∧ update_velocity_x 2 100 0 = -2
    ∧ update_velocity_x (-2) 0 500 = -2 := by
  refine ⟨(velocity_guard_spec 2 0 100).1 (by norm_num) (by norm_num),
    (velocity_guard_spec 2 100 0).2.1 (by norm_num) (by norm_num),
    (velocity_guard_spec (-2) 0 500).2.2 (by norm_num)⟩

/-- C4: with the correction active and the target `T = (true_x, true_y)`
fixed, each tick applies the easing update `P + 0.1 * (T - P)` per axis;
the remaining distance shrinks by the exact factor `9/10` per tick, is
strictly decreasing while `P ≠ T`, never overshoots (the sign of `T - P`
never flips), falls below any `ε > 0` after finitely many easing ticks,
and the `correcting` flag is disarmed on the tick whose remaining distance
is below `1.0` in both axes. -/
theorem soft_correction_convergence (s : PredictorState) (eps : ℚ)
    (hact : s.correction_active = true) (heps : 0 < eps) :
    ((correction_step s).predicted_x = ease s.true_x s.predicted_x
      ∧ (correction_step s).predicted_y = ease s.true_y s.predicted_y)
    ∧ (∀ T P : ℚ, T - ease T P = (9/10) * (T - P))
    ∧ (∀ T P : ℚ, P ≠ T → |T - ease T P| < |T - P|)
    ∧ (∀ T P : ℚ, 0 ≤ (T - ease T P) * (T - P))
    ∧ (∀ T P : ℚ, ∃ n : ℕ, |T - ease_iter T P n| < eps)
    ∧ (|s.true_x - s.predicted_x| < 1 ∧ |s.true_y - s.predicted_y| < 1 →
        (correction_step s).correction_active = false) := by
  have hfact : ∀ T P : ℚ, T - ease T P = (9/10) * (T - P) := by
    intro T P; unfold ease; ring
  refine ⟨⟨?_, ?_⟩, hfact, ?_, ?_, ?_, ?_⟩
  · simp [correction_step, hact, ease]
  · simp [correction_step, hact, ease]
  · intro T P hne
    rw [hfact, abs_mul, (by norm_num : |(9/10 : ℚ)| = 9/10)]
    have h3 : 0 < |T - P| := abs_pos.mpr (sub_ne_zero.mpr (Ne.symm hne))
    calc (9/10 : ℚ) * |T - P| < 1 * |T - P| := by
          exact mul_lt_mul_of_pos_right (by norm_num) h3
      _ = |T - P| := one_mul _
  · intro T P
    have h : (T - ease T P) * (T - P) = (9/10) * (T - P)^2 := by unfold ease; ring
    rw [h]
    positivity
  · intro T P
    have hiter : ∀ n : ℕ, T - ease_iter T P n = (9/10)^n * (T - P) := by
      intro n
      induction n with
      | zero => simp [ease_iter]
      | succ k ih =>
        have hstep : T - ease T (ease_iter T P k) = (9/10) * (T - ease_iter T P k) :=
          hfact T (ease_iter T P k)
        calc T - ease_iter T P (k + 1) = (9/10) * (T - ease_iter T P k) := hstep
          _ = (9/10) * ((9/10)^k * (T - P)) := by rw [ih]
          _ = (9/10)^(k+1) * (T - P) := by ring
    by_cases hTP : T - P = 0
    · exact ⟨0, by simp [ease_iter, hTP, sub_eq_zero.mp hTP, heps]⟩
    · obtain ⟨n, hn⟩ := exists_pow_lt_of_lt_one
        (div_pos heps (abs_pos.mpr hTP)) (by norm_num : (9/10 : ℚ) < 1)
      refine ⟨n, ?_⟩
      rw [hiter n, abs_mul, abs_pow, (by norm_num : |(9/10 : ℚ)| = 9/10)]
      calc (9/10 : ℚ)^n * |T - P| < (eps / |T - P|) * |T - P| :=
            mul_lt_mul_of_pos_right hn (abs_pos.mpr hTP)
        _ = eps := div_mul_cancel₀ eps (ne_of_gt (abs_pos.mpr hTP))
  · intro h
    simp [correction_step, hact, h.1, h.2]

/-- C4 witness: a concrete correcting state with target `(10, 10)` and
prediction `(0, 0)`; the easing iteration reaches distance below `1`. -/
theorem soft_correction_convergence_witness :
    ((correction_step ⟨true, none, 0, 0, 10, 10, 2, 0, 0, false, true⟩).predicted_x
        = ease 10 0)
    ∧ ∃ n : ℕ, |(10 : ℚ) - ease_iter 10 0 n| < 1 := by
  have h := soft_correction_convergence
    ⟨true, none, 0, 0, 10, 10, 2, 0, 0, false, true⟩ 1 rfl (by norm_num)
  exact ⟨h.1.1, h.2.2.2.2.1 10 0⟩

/-- C5: every tick with a buffered real frame emits a sample whose
confidence is `max(0.1, 1 - dt/2)` for the staleness age
`dt = now - last_update_time`; that confidence function is non-increasing
in `dt`, lies in `[0.1, 1]` for `dt ≥ 0`, and is strictly positive (floors
at `0.1`, never reaching zero). -/
theorem strategyB_confidence_spec (sk : Nat) (now : ℚ) (c : Nat)
    (s : PredictorState) (rd : RealFrame)
    (hlr : s.latest_real_frame = some rd) :
    (∃ out, (predictor_tick sk now c s).2.2 = some out
      ∧ out.metadata.confidence = strategyB_confidence (now - s.last_update_time))
    ∧ (∀ dt dt' : ℚ, dt ≤ dt' → strategyB_confidence dt' ≤ strategyB_confidence dt)
    ∧ (∀ dt : ℚ, 0 ≤ dt → 1/10 ≤ strategyB_confidence dt ∧ strategyB_confidence dt ≤ 1)
    ∧ (∀ dt : ℚ, 0 < strategyB_confidence dt) := by
  refine ⟨?_, ?_, ?_, ?_⟩
  · simp only [predictor_tick, hlr]
    exact ⟨_, rfl, rfl⟩
  · intro dt dt' h
    unfold strategyB_confidence
    exact max_le_max le_rfl (by linarith)
  · intro dt h
    unfold strategyB_confidence
    exact ⟨le_max_left _ _, max_le (by norm_num) (by linarith)⟩
  · intro dt
    unfold strategyB_confidence
    exact lt_of_lt_of_le (by norm_num) (le_max_left _ _)

/-- C5 witness: a concrete tick over a buffered real frame, and concrete
bounds at staleness age `4`. -/
theorem strategyB_confidence_spec_witness :
    (∃ out,
      (predictor_tick 0 6 0
        ⟨true, some ⟨⟨0, 0, "roving", 100, -60⟩, ⟨some 1, some 2, none, none, none, none⟩⟩,
          0, 0, 0, 0, 2, 0, 2, false, false⟩).2.2 = some out
      ∧ out.metadata.confidence = strategyB_confidence 4)
    ∧ (1/10 : ℚ) ≤ strategyB_confidence 4 ∧ strategyB_confidence 4 ≤ 1 := by
  have h := strategyB_confidence_spec 0 6 0
    ⟨true, some ⟨⟨0, 0, "roving", 100, -60⟩, ⟨some 1, some 2, none, none, none, none⟩⟩,
      0, 0, 0, 0, 2, 0, 2, false, false⟩
    ⟨⟨0, 0, "roving", 100, -60⟩, ⟨some 1, some 2, none, none, none, none⟩⟩ rfl
  refine ⟨?_, (h.2.2.1 4 (by norm_num)).1, (h.2.2.1 4 (by norm_num)).2⟩
  have h1 := h.1
  norm_num at h1 ⊢
  exact h1

/-- C6 counterexample: two identical bracketing frames have Euclidean
displacement `0` (a valid square root of `(x2-x1)^2 + (y2-y1)^2 = 0`), and
`interpolate_frames` then attaches confidence `0.98` to both interpolated
frames — outside the interval `[0.5, 0.95]` the claim states. -/
theorem interpolate_confidence_counterexample :
    ((0 : ℚ) ≤ 0 ∧ (0 : ℚ)^2 = (0 - 0)^2 + (0 - 0)^2)
    ∧ (interpolate_frames ⟨0, 0, "idle", 100, -60⟩ ⟨0, 0, "idle", 100, -60⟩ 0 2).map
        Prod.snd = [49/50, 49/50]
    ∧ ¬((49/50 : ℚ) ≤ 19/20) := by
  refine ⟨by norm_num, ?_, by norm_num⟩
  have hc : interp_confidence 0 = 49/50 := by
    unfold interp_confidence
    rw [min_eq_left (by norm_num), max_eq_right (by norm_num)]
  simp [interpolate_frames, hc, List.range_succ]

/-- C6 (amended): with `dist` the Euclidean displacement between the
bracketing frames (`dist ≥ 0`, `dist² = (x2-x1)² + (y2-y1)²`), every
confidence returned by `interpolate_frames` equals
`max(0.5, min(0.98, 1 - dist/500))`, lies in the clamp interval
`[0.5, 0.98]`, and is non-increasing in `dist`. -/
theorem interpolate_confidence_spec (f1 f2 : TelemetryFrame) (dist : ℚ)
    (n : Nat) (hd : 0 ≤ dist)
    (hsq : dist^2 = (f2.rover_x - f1.rover_x)^2 + (f2.rover_y - f1.rover_y)^2) :
    (∀ p ∈ interpolate_frames f1 f2 dist n,
      p.2 = interp_confidence dist ∧ 1/2 ≤ p.2 ∧ p.2 ≤ 49/50)
    ∧ (∀ d d' : ℚ, d ≤ d' → interp_confidence d' ≤ interp_confidence d) := by
  have hbounds : 1/2 ≤ interp_confidence dist ∧ interp_confidence dist ≤ 49/50 := by
    unfold interp_confidence
    exact ⟨le_max_left _ _, max_le (by norm_num) (min_le_left _ _)⟩
  constructor
  · intro p hp
    simp only [interpolate_frames, List.mem_map, List.mem_range] at hp
    obtain ⟨i, _, hi⟩ := hp
    have hp2 : p.2 = interp_confidence dist := by rw [← hi]
    exact ⟨hp2, hp2 ▸ hbounds.1, hp2 ▸ hbounds.2⟩
  · intro d d' h
    unfold interp_confidence
    exact max_le_max le_rfl (min_le_min le_rfl (by linarith))

/-- C6 witness: bracketing frames `(0,0)` and `(300,400)` at Euclidean
displacement `500`; the attached confidence is clamped to the floor `0.5`. -/
theorem interpolate_confidence_spec_witness :
    (∀ p ∈ interpolate_frames ⟨0, 0, "idle", 100, -60⟩ ⟨300, 400, "idle", 100, -60⟩ 500 2,
      p.2 = interp_confidence 500 ∧ 1/2 ≤ p.2 ∧ p.2 ≤ 49/50)
    ∧ interp_confidence 500 = 1/2 := by
  refine ⟨(interpolate_confidence_spec ⟨0, 0, "idle", 100, -60⟩
    ⟨300, 400, "idle", 100, -60⟩ 500 2 (by norm_num) (by norm_num)).1, ?_⟩
  unfold interp_confidence
  norm_num

/-- C7 counterexample: an active session whose predictor loop ticks before
any real sample has arrived emits nothing — the loop body is skipped by
`continue`, so a tick of an active session does not always emit exactly
one synthesized sample. -/
theorem predictor_tick_emission_counterexample :
    ((⟨true, none, 0, 0, 0, 0, 2, 0, 0, false, false⟩ : PredictorState).active = true)
    ∧ (predictor_tick 0 0 0 ⟨true, none, 0, 0, 0, 0, 2, 0, 0, false, false⟩).2.2 = none := by
  exact ⟨rfl, rfl⟩

/-- C7 (amended): once at least one real sample has been buffered, every
fixed-cadence tick emits exactly one synthesized sample (`synth_count`
increases by exactly one and the output is present), regardless of
staleness; ticks before the first real sample emit nothing. -/
theorem predictor_tick_emission_spec (sk : Nat) (now : ℚ) (c : Nat)
    (s : PredictorState) :
    (s.latest_real_frame.isSome = true →
      ((predictor_tick sk now c s).2.2).isSome = true
      ∧ (predictor_tick sk now c s).2.1 = c + 1)
    ∧ (s.latest_real_frame = none → (predictor_tick sk now c s).2.2 = none) := by
  cases h : s.latest_real_frame with
  | none => simp [predictor_tick, h]
  | some rd => simp [predictor_tick, h]

/-- C7 witness: a concrete tick with a buffered real frame emits a sample
and bumps the counter. -/
theorem predictor_tick_emission_spec_witness :
    ((predictor_tick 0 1 0
        ⟨true, some ⟨⟨0, 0, "roving", 100, -60⟩, ⟨some 1, some 0, none, none, none, none⟩⟩,
          0, 0, 0, 0, 2, 0, 0, false, false⟩).2.2).isSome = true
    ∧ (predictor_tick 0 1 0
        ⟨true, some ⟨⟨0, 0, "roving", 100, -60⟩, ⟨some 1, some 0, none, none, none, none⟩⟩,
          0, 0, 0, 0, 2, 0, 0, false, false⟩).2.1 = 1 := by
  exact (predictor_tick_emission_spec 0 1 0
    ⟨true, some ⟨⟨0, 0, "roving", 100, -60⟩, ⟨some 1, some 0, none, none, none, none⟩⟩,
      0, 0, 0, 0, 2, 0, 0, false, false⟩).1 rfl

/-- C8: for base delay `b ≥ 0`, jitter range `j ≥ 0` and a uniform draw
`u ∈ [-j, j]`, the injected delay is `max(0, b + u) / 1000` seconds, and
in milliseconds it lies in the interval `[max(0, b - j), b + j]`. -/
theorem calculate_delay_bounds (b j u : ℚ) (hb : 0 ≤ b) (hj : 0 ≤ j)
    (hu1 : -j ≤ u) (hu2 : u ≤ j) :
    calculate_delay b u = max 0 (b + u) / 1000
    ∧ max 0 (b - j) ≤ 1000 * calculate_delay b u
    ∧ 1000 * calculate_delay b u ≤ b + j := by
  have hms : 1000 * calculate_delay b u = max 0 (b + u) := by
    unfold calculate_delay; ring
  refine ⟨rfl, ?_, ?_⟩
  · rw [hms]
    exact max_le_max le_rfl (by linarith)
  · rw [hms]
    exact max_le (by linarith) (by linarith)

/-- C8 witness: base `3000` ms, jitter `500` ms, draw `-200`: the delay is
`2.8` seconds and its millisecond value lies in `[2500, 3500]`. -/
theorem calculate_delay_bounds_witness :
    calculate_delay 3000 (-200) = max 0 (3000 + -200) / 1000
    ∧ max 0 ((3000 : ℚ) - 500) ≤ 1000 * calculate_delay 3000 (-200)
    ∧ 1000 * calculate_delay 3000 (-200) ≤ 3000 + 500 := by
  exact calculate_delay_bounds 3000 500 (-200) (by norm_num) (by norm_num)
    (by norm_num) (by norm_num)

/-- C9: every forwarded real frame carries `is_synthesized = false`; every
synthesized attestation carries `is_synthesized = true`; and every sample
the predictor tick emits is synthesized with a non-empty parent list of
exactly one element, the `frame_id` of the latest buffered real frame. -/
theorem attestation_kind_invariant (md : MetaDict) (v : Bool) (sk : Nat)
    (fd : TelemetryFrame) (fid : String) (pids : List Int) (conf ts : ℚ)
    (now : ℚ) (c : Nat) (s : PredictorState) (rd : RealFrame)
    (hlr : s.latest_real_frame = some rd) :
    (forward_real_frame md v).is_synthesized = false
    ∧ (sign_synthesized_frame sk fd fid pids conf ts).is_synthesized = true
    ∧ (∃ out, (predictor_tick sk now c s).2.2 = some out
        ∧ out.metadata.is_synthesized = true
        ∧ out.metadata.parent_frame_ids = [rd.metadata.frame_id.getD 0]
        ∧ out.metadata.parent_frame_ids ≠ []) := by
  refine ⟨rfl, rfl, ?_⟩
  simp only [predictor_tick, hlr]
  exact ⟨_, rfl, rfl, rfl, by simp [sign_synthesized_frame]⟩

/-- C9 witness: a concrete forwarded frame and a concrete tick whose
emitted sample's parent list is the singleton of the real frame's id. -/
theorem attestation_kind_invariant_witness :
    (forward_real_frame ⟨some 1, some 0, none, none, none, none⟩ true).is_synthesized = false
    ∧ (∃ out,
        (predictor_tick 0 1 0
          ⟨true, some ⟨⟨0, 0, "roving", 100, -60⟩, ⟨some 9, some 0, none, none, none, none⟩⟩,
            0, 0, 0, 0, 2, 0, 0, false, false⟩).2.2 = some out
        ∧ out.metadata.is_synthesized = true
        ∧ out.metadata.parent_frame_ids = [(9 : Int)]
        ∧ out.metadata.parent_frame_ids ≠ []) := by
  have h := attestation_kind_invariant ⟨some 1, some 0, none, none, none, none⟩ true 0
    ⟨0, 0, "roving", 100, -60⟩ "x" [] 0 0 1 0
    ⟨true, some ⟨⟨0, 0, "roving", 100, -60⟩, ⟨some 9, some 0, none, none, none, none⟩⟩,
      0, 0, 0, 0, 2, 0, 0, false, false⟩
    ⟨⟨0, 0, "roving", 100, -60⟩, ⟨some 9, some 0, none, none, none, none⟩⟩ rfl
  exact ⟨h.1, h.2.2⟩

/-- C10: `update_config` only modifies the fields whose parameters are
supplied — every omitted (`None`) parameter leaves its field unchanged, a
call with all four parameters omitted leaves the configuration exactly
unchanged — and if the stored `packet_loss_rate` was in `[0, 1]` it is
still in `[0, 1]` after any update (a supplied rate is clamped by
`max(0, min(1, rate))`). -/
theorem update_config_frame_spec (c : NetworkConfig) (b j : Option Int)
    (r : Option ℚ) (bw : Option Int)
    (hr : 0 ≤ c.packet_loss_rate ∧ c.packet_loss_rate ≤ 1) :
    (b = none → (update_config c b j r bw).base_delay_ms = c.base_delay_ms)
    ∧ (j = none → (update_config c b j r bw).jitter_ms = c.jitter_ms)
    ∧ (r = none → (update_config c b j r bw).packet_loss_rate = c.packet_loss_rate)
    ∧ (bw = none → (update_config c b j r bw).bandwidth_limit_kbps = c.bandwidth_limit_kbps)
    ∧ update_config c none none none none = c
    ∧ (0 ≤ (update_config c b j r bw).packet_loss_rate
        ∧ (update_config c b j r bw).packet_loss_rate ≤ 1) := by
  refine ⟨?_, ?_, ?_, ?_, rfl, ?_⟩
  · intro hb; subst hb
    cases j <;> cases r <;> cases bw <;> simp [update_config]
  · intro hj; subst hj
    cases b <;> cases r <;> cases bw <;> simp [update_config]
  · intro hrr; subst hrr
    cases b <;> cases j <;> cases bw <;> simp [update_config]
  · intro hbw; subst hbw
    cases b <;> cases j <;> cases r <;> simp [update_config]
  · cases r with
    | none =>
      have heq : (update_config c b j none bw).packet_loss_rate = c.packet_loss_rate := by
        cases b <;> cases j <;> cases bw <;> simp [update_config]
      rw [heq]; exact hr
    | some v =>
      have heq : (update_config c b j (some v) bw).packet_loss_rate = max 0 (min 1 v) := by
        cases b <;> cases j <;> cases bw <;> simp [update_config]
      rw [heq]
      exact ⟨le_max_left _ _, max_le (by norm_num) (min_le_left _ _)⟩

/-- C10 witness: updating only the loss rate of the default configuration
(with an out-of-range value `1.5`) keeps the other fields and clamps the
stored rate into `[0, 1]`. -/
theorem update_config_frame_spec_witness :
    (update_config default_config none none (some (3/2)) none).base_delay_ms
        = default_config.base_delay_ms
    ∧ (update_config default_config none none (some (3/2)) none).jitter_ms
        = default_config.jitter_ms
    ∧ update_config default_config none none none none = default_config
    ∧ (0 ≤ (update_config default_config none none (some (3/2)) none).packet_loss_rate
        ∧ (update_config default_config none none (some (3/2)) none).packet_loss_rate ≤ 1) := by
  have h := update_config_frame_spec default_config none none (some (3/2)) none
    (by constructor <;> norm_num [default_config])
  have h0 := update_config_frame_spec default_config none none none none
    (by constructor <;> norm_num [default_config])
  exact ⟨h.1 rfl, h.2.1 rfl, h0.2.2.2.2.1, h.2.2.2.2.2⟩

end InterplanetaryNetwork
